import Mathlib

/-!
Shallow embedding of the secure-print backend of this repository:
the token-issuer / access-ledger endpoints in
`src/backend/src/routes/docs.js` and the render / merge workers in
`workers/pdfWorker.js` (src/unnamed/part_014), with the Mongoose schemas of
`DocumentAccess`, `PrintSession`, `OfflineToken`, `DocumentJobs` and
`Document`.

Modelling conventions:
- opaque identifiers (Mongo ObjectIds, random hex tokens, S3 keys) are
  natural numbers; timestamps are milliseconds since epoch as naturals;
- every MongoDB call (`findOne`, `findOneAndUpdate`, `findByIdAndUpdate`,
  `deleteMany`, `create`) is one atomic operation on the state; a sequential
  endpoint is a function on the state, and concurrent endpoint invocations
  are modelled as interleavings of their atomic operations;
- external collaborators (S3, the rasterizer, pdf-lib) are modelled as
  succeeding: streaming a document is returning its `fileKey`;
- audit-only columns that none of the verified properties touch
  (printerName, printerType, portName, clientOS, PrintLog rows) are elided.
-/

namespace SecurePdf

/-- `status` field of a `DocumentAccess` record (DocumentAccess schema). -/
inductive AccessStatus
  | active
  | exhausted
deriving DecidableEq

/-- One AccessLedger entry, i.e. one `DocumentAccess` document
(src/unnamed/part_012, documentAccessSchema). -/
structure DocumentAccess where
  userId : Nat
  documentId : Nat
  assignedQuota : Nat
  usedPrints : Nat
  status : AccessStatus
  exhaustedAt : Option Nat
  sessionToken : Option Nat
deriving DecidableEq

/-- One online print token, i.e. one `PrintSession` document
(src/backend/src/models/PrintSession.js). -/
structure PrintSession where
  token : Nat
  userId : Nat
  documentId : Nat
  documentAccessId : Nat
  expiresAt : Nat
  fetchedAt : Option Nat
  fetchCount : Nat
  usedAt : Option Nat
deriving DecidableEq

/-- One offline token, i.e. one `OfflineToken` document
(src/unnamed/part_011). -/
structure OfflineToken where
  tokenId : Nat
  userId : Nat
  documentId : Nat
  documentAccessId : Nat
  machineGuidHash : Nat
  createdAt : Nat
  expiresAt : Nat
  usedAt : Option Nat
  reconciledAt : Option Nat
deriving DecidableEq

/-- A stored `Document`; only the storage key matters to the verified
properties (streaming the document is serving the bytes at `fileKey`). -/
structure Doc where
  fileKey : Nat
deriving DecidableEq

/-- The persistent state seen by the routes in docs.js.  Collections are
association lists keyed by the record's primary id; `sessions` and
`offlineTokens` carry their key inside the record (`token` / `tokenId`,
unique-indexed in the schema). -/
structure DocsState where
  accesses : List (Nat × DocumentAccess)
  sessions : List PrintSession
  offlineTokens : List OfflineToken
  documents : List (Nat × Doc)
deriving DecidableEq

/-- Mongo `findById` on the DocumentAccess collection. -/
def findAccessById (aid : Nat) (l : List (Nat × DocumentAccess)) : Option DocumentAccess :=
  (l.find? (fun p => decide (p.1 = aid))).map Prod.snd

/-- Apply an update to the DocumentAccess record with id `aid`. -/
def updateAccessById (aid : Nat) (f : DocumentAccess → DocumentAccess)
    (l : List (Nat × DocumentAccess)) : List (Nat × DocumentAccess) :=
  l.map (fun p => if p.1 = aid then (p.1, f p.2) else p)

/-- Mongo `findById` on the Document collection. -/
def findDocById (did : Nat) (l : List (Nat × Doc)) : Option Doc :=
  (l.find? (fun p => decide (p.1 = did))).map Prod.snd

/-- In-place save of one PrintSession document (Mongoose `session.save()` /
`findOneAndUpdate` by `_id`): the matched document is replaced by `newS`. -/
def replaceSession (oldS newS : PrintSession) (l : List PrintSession) : List PrintSession :=
  l.map (fun x => if x = oldS then newS else x)

/-- `PrintSession.findOne({ token, userId })` — the print-confirm lookup
(docs.js:481). -/
def confirmFinder (printToken userId : Nat) (s : PrintSession) : Bool :=
  decide (s.token = printToken ∧ s.userId = userId)

/-- `PrintSession.findOne({ token, userId, expiresAt: { $gt: now } })` — the
print-file lookup (docs.js:403). -/
def fetchFinder (token userId now : Nat) (s : PrintSession) : Bool :=
  decide (s.token = token ∧ s.userId = userId ∧ now < s.expiresAt)

/-- `OfflineToken.findOne({ tokenId, userId, usedAt: null, expiresAt: { $gt: now } })`
— the offline fallback lookup of print-file (docs.js:433). -/
def offlineFinder (token userId now : Nat) (o : OfflineToken) : Bool :=
  decide (o.tokenId = token ∧ o.userId = userId ∧ o.usedAt = none ∧ now < o.expiresAt)

/-- `PrintSession.findOne({ userId, documentAccessId, usedAt: null,
expiresAt: { $gt: now } })` — the in-flight check of secure-print
(docs.js:350-355).  Note the guard is on `usedAt`, not `fetchedAt`. -/
def inFlightFinder (userId aid now : Nat) (s : PrintSession) : Bool :=
  decide (s.userId = userId ∧ s.documentAccessId = aid ∧ s.usedAt = none ∧ now < s.expiresAt)

/-- The guarded atomic compare-and-increment on the ledger performed by
print-confirm (docs.js:501-509):
`DocumentAccess.findOneAndUpdate({ _id, status: { $ne: exhausted },
$expr: usedPrints < assignedQuota }, { $inc: { usedPrints: 1 } })`.
Returns `none` exactly when the guard fails (zero documents matched). -/
def tryIncUsedPrints (a : DocumentAccess) : Option DocumentAccess :=
  if a.status ≠ AccessStatus.exhausted ∧ a.usedPrints < a.assignedQuota then
    some { a with usedPrints := a.usedPrints + 1 }
  else none

/-- The exhaustion write of print-confirm (docs.js:516-523):
`$set: { status: exhausted, exhaustedAt: now }, $unset: { sessionToken }`. -/
def exhaustAccess (now : Nat) (a : DocumentAccess) : DocumentAccess :=
  { a with status := AccessStatus.exhausted, exhaustedAt := some now, sessionToken := none }

/-- The invalidation of outstanding unused tokens plus the exhaustion write,
as applied to the stored state (docs.js:516-524):
`PrintSession.deleteMany({ documentAccessId, usedAt: null })`. -/
def confirmExhaustPhase (aid now : Nat) (st : DocsState) : DocsState :=
  { st with
    accesses := updateAccessById aid (exhaustAccess now) st.accesses,
    sessions := st.sessions.filter
      (fun s => !(decide (s.documentAccessId = aid ∧ s.usedAt = none))) }

/-- Failure replies of `POST /print-confirm` (docs.js:473-552). -/
inductive ConfirmError
  | sessionNotFound    -- 404 Print session not found
  | alreadyConfirmed   -- 409 Print session already confirmed
  | sessionExpired     -- 410 Print session expired
  | quotaExceeded      -- 403 Print quota exceeded
deriving DecidableEq

/-- Success payload of `POST /print-confirm` (docs.js:541-547). -/
structure ConfirmOk where
  usedPrints : Nat
  assignedPrints : Nat
  remainingPrints : Nat
  status : AccessStatus
deriving DecidableEq

/-- The `session.usedAt = now; await session.save()` step of print-confirm
(docs.js:494-499). -/
def confirmMarkUsed (session : PrintSession) (now : Nat) (st : DocsState) : DocsState :=
  { st with sessions := replaceSession session { session with usedAt := some now } st.sessions }

/-- Store the ledger entry returned by the guarded atomic increment
(docs.js:501-509 writes it in place; this records the written value). -/
def confirmApplyInc (aid : Nat) (a1 : DocumentAccess) (st : DocsState) : DocsState :=
  { st with accesses := updateAccessById aid (fun _ => a1) st.accesses }

/-- `POST /print-confirm` (docs.js:473-552).  Looks the session up by
`(token, userId)`, rejects already-confirmed and expired sessions, stamps
`usedAt`, then runs the guarded atomic increment on the ledger; if the
increment brings `usedPrints` to `assignedQuota` it marks the entry
exhausted, clears its `sessionToken` and deletes all unused sessions of the
entry.  The success payload in the exhausted case reads the fields of the
exhausted document (the `{ new: true }` result of docs.js:516-523). -/
def printConfirm (userId printToken now : Nat) (st : DocsState) :
    Except ConfirmError ConfirmOk × DocsState :=
  match st.sessions.find? (confirmFinder printToken userId) with
  | none => (Except.error ConfirmError.sessionNotFound, st)
  | some session =>
    if session.usedAt.isSome then (Except.error ConfirmError.alreadyConfirmed, st)
    else if session.expiresAt < now then (Except.error ConfirmError.sessionExpired, st)
    else
      match st.accesses.find? (fun p => decide (p.1 = session.documentAccessId)) with
      | none => (Except.error ConfirmError.quotaExceeded, confirmMarkUsed session now st)
      | some (aid, a) =>
        match tryIncUsedPrints a with
        | none => (Except.error ConfirmError.quotaExceeded, confirmMarkUsed session now st)
        | some a1 =>
          if a1.assignedQuota ≤ a1.usedPrints then
            (Except.ok ⟨a1.usedPrints, a1.assignedQuota, a1.assignedQuota - a1.usedPrints,
               AccessStatus.exhausted⟩,
             confirmExhaustPhase aid now (confirmApplyInc aid a1 (confirmMarkUsed session now st)))
          else
            (Except.ok ⟨a1.usedPrints, a1.assignedQuota, a1.assignedQuota - a1.usedPrints, a1.status⟩,
             confirmApplyInc aid a1 (confirmMarkUsed session now st))

/-- The atomic conditional update of `GET /print-file/:token`
(docs.js:421-425): `PrintSession.findOneAndUpdate({ _id, fetchedAt: null },
{ $set: { fetchedAt: now }, $inc: { fetchCount: 1 } })`.  `none` means zero
documents matched (the token was already fetched). -/
def casFetchSession (now : Nat) (s : PrintSession) : Option PrintSession :=
  if s.fetchedAt = none then
    some { s with fetchedAt := some now, fetchCount := s.fetchCount + 1 }
  else none

/-- Failure replies of `GET /print-file/:token` (docs.js:397-470). -/
inductive FetchError
  | tokenNotFoundOrUsed  -- 404 Print token not found or already used
  | accessNotFound       -- 404 Access not found
  | printLimitReached    -- 403 Print limit reached
  | documentNotFound     -- 404 Document not found
deriving DecidableEq

/-- `GET /print-file/:token` (docs.js:397-470).  Tries the online
PrintSession flow first: rejects fetched tokens, checks the ledger, then
performs the atomic conditional update on `fetchedAt` and streams the
document.  If no live session matches, falls back to the OfflineToken flow,
which streams the document without mutating anything. -/
def printFileFetch (userId token now : Nat) (st : DocsState) :
    Except FetchError Nat × DocsState :=
  match st.sessions.find? (fetchFinder token userId now) with
  | some session =>
    if session.fetchedAt.isSome then (Except.error FetchError.tokenNotFoundOrUsed, st)
    else
      match findAccessById session.documentAccessId st.accesses with
      | none => (Except.error FetchError.accessNotFound, st)
      | some access =>
        if access.status = AccessStatus.exhausted ∨ access.assignedQuota - access.usedPrints = 0 then
          (Except.error FetchError.printLimitReached, st)
        else
          match casFetchSession now session with
          | none => (Except.error FetchError.tokenNotFoundOrUsed, st)
          | some session2 =>
            match findDocById session.documentId st.documents with
            | none =>
              (Except.error FetchError.documentNotFound,
               { st with sessions := replaceSession session session2 st.sessions })
            | some d =>
              (Except.ok d.fileKey,
               { st with sessions := replaceSession session session2 st.sessions })
  | none =>
    match st.offlineTokens.find? (offlineFinder token userId now) with
    | none => (Except.error FetchError.tokenNotFoundOrUsed, st)
    | some o =>
      match findDocById o.documentId st.documents with
      | none => (Except.error FetchError.documentNotFound, st)
      | some d => (Except.ok d.fileKey, st)

/-- Failure replies of `POST /secure-print` (docs.js:323-394). -/
inductive IssueError
  | accessNotFound       -- 404 Access not found
  | notAuthorized        -- 403 Not authorized for this document
  | printLimitExceeded   -- 403 Print limit exceeded
  | printLimitReached    -- 403 Print limit reached
  | alreadyInProgress    -- 409 Print already in progress
  | documentNotFound     -- 404 Document not found
deriving DecidableEq

/-- Success payload of `POST /secure-print` (docs.js:383-389). -/
structure IssueOk where
  printToken : Nat
  expiresAt : Nat
  remainingPrints : Nat
  maxPrints : Nat
deriving DecidableEq

/-- `POST /secure-print` (docs.js:323-394).  Validates quota and mints a
single-use print token with a 60 second TTL; fails `409` when another
unused, unexpired session exists for the same (user, ledger entry) pair.
`newToken` stands for the fresh `crypto.randomBytes` token. -/
def securePrint (userId sessionTok now newToken : Nat) (st : DocsState) :
    Except IssueError IssueOk × DocsState :=
  match st.accesses.find? (fun p => decide (p.2.sessionToken = some sessionTok)) with
  | none => (Except.error IssueError.accessNotFound, st)
  | some (aid, access) =>
    if access.userId ≠ userId then (Except.error IssueError.notAuthorized, st)
    else if access.assignedQuota - access.usedPrints = 0 then
      (Except.error IssueError.printLimitExceeded, st)
    else if access.status = AccessStatus.exhausted then
      (Except.error IssueError.printLimitReached, st)
    else
      match st.sessions.find? (inFlightFinder userId aid now) with
      | some _ => (Except.error IssueError.alreadyInProgress, st)
      | none =>
        match findDocById access.documentId st.documents with
        | none => (Except.error IssueError.documentNotFound, st)
        | some _ =>
          let expiresAt := now + 60 * 1000
          let newSession : PrintSession :=
            { token := newToken, userId := userId, documentId := access.documentId,
              documentAccessId := aid, expiresAt := expiresAt,
              fetchedAt := none, fetchCount := 0, usedAt := none }
          (Except.ok ⟨newToken, expiresAt, access.assignedQuota - access.usedPrints, access.assignedQuota⟩,
           { st with sessions := st.sessions ++ [newSession] })

/-- Failure replies of `POST /offline-token/prepare` (docs.js:555-612). -/
inductive PrepareError
  | accessNotFound   -- 404 Access not found
  | notAuthorized    -- 403 Not authorized for this document
  | quotaExceeded    -- 403 Print quota exceeded
  | documentNotFound -- 404 Document not found
deriving DecidableEq

/-- Success payload of `POST /offline-token/prepare` (docs.js:601-607). -/
structure PrepareOk where
  offlineTokenId : Nat
  expiresAt : Nat
  remainingPrints : Nat
  maxPrints : Nat
deriving DecidableEq

/-- `POST /offline-token/prepare` (docs.js:555-612).  Note the shape of the
quota handling in the source: the check `usedPrints >= assignedQuota`
(docs.js:572) is a plain read of the previously fetched document, and the
later ledger write `findByIdAndUpdate(id, { $inc: { usedPrints: 1 } })`
(docs.js:598) is unconditional — not a guarded compare-and-increment. -/
def prepareOffline (userId sessionTok machineGuidHash now expiresInSeconds newTokenId : Nat)
    (st : DocsState) : Except PrepareError PrepareOk × DocsState :=
  match st.accesses.find? (fun p => decide (p.2.sessionToken = some sessionTok)) with
  | none => (Except.error PrepareError.accessNotFound, st)
  | some (aid, access) =>
    if access.userId ≠ userId then (Except.error PrepareError.notAuthorized, st)
    else if access.assignedQuota ≤ access.usedPrints then
      (Except.error PrepareError.quotaExceeded, st)
    else
      match findDocById access.documentId st.documents with
      | none => (Except.error PrepareError.documentNotFound, st)
      | some _ =>
        let expiresAt := now + expiresInSeconds * 1000
        let tok : OfflineToken :=
          { tokenId := newTokenId, userId := userId, documentId := access.documentId,
            documentAccessId := aid, machineGuidHash := machineGuidHash,
            createdAt := now, expiresAt := expiresAt, usedAt := none, reconciledAt := none }
        let accesses1 := updateAccessById aid
          (fun a => { a with usedPrints := a.usedPrints + 1 }) st.accesses
        (Except.ok ⟨newTokenId, expiresAt,
            access.assignedQuota - (access.usedPrints + 1), access.assignedQuota⟩,
         { st with offlineTokens := st.offlineTokens ++ [tok], accesses := accesses1 })

/-- The atomic ledger operations that the online confirm flow can apply to
one AccessLedger entry.  `confirmInc` is the guarded compare-and-increment
(docs.js:501-509); `exhaust now` is the exhaustion write (docs.js:516-523),
which a confirm call issues only after it observed `usedPrints >=
assignedQuota` on the entry — since `usedPrints` never decreases, the
condition still holds when the write lands, so it is modelled as the
conditional write.  An arbitrary interleaving of concurrent `ConfirmPrint`
calls projects, on the ledger entry, to an arbitrary list of these
operations. -/
inductive LedgerOp
  | confirmInc
  | exhaust (now : Nat)
deriving DecidableEq

/-- Apply one atomic ledger operation; the `Bool` reports whether a
`confirmInc` matched (i.e. that confirm call succeeded). -/
def applyLedgerOp : LedgerOp → DocumentAccess → Bool × DocumentAccess
  | LedgerOp.confirmInc, a =>
    match tryIncUsedPrints a with
    | some a1 => (true, a1)
    | none => (false, a)
  | LedgerOp.exhaust now, a =>
    if a.assignedQuota ≤ a.usedPrints then (false, exhaustAccess now a) else (false, a)

/-- Run a list of atomic ledger operations, counting successful confirms. -/
def runLedgerOps : List LedgerOp → DocumentAccess → Nat × DocumentAccess
  | [], a => (0, a)
  | op :: rest, a =>
    let r := applyLedgerOp op a
    let rr := runLedgerOps rest r.2
    ((if r.1 then 1 else 0) + rr.1, rr.2)

/-- Number of `confirmInc` operations in a list of ledger operations, i.e.
the number of confirm calls whose guarded increment is attempted. -/
def countIncs : List LedgerOp → Nat
  | [] => 0
  | LedgerOp.confirmInc :: rest => countIncs rest + 1
  | LedgerOp.exhaust _ :: rest => countIncs rest

/-- Outcome of one racing print-file call, at the granularity of its two
session operations: `streamed` is the 200 reply with the document bytes,
`alreadyUsed` the 404 `Print token not found or already used` reply. -/
inductive FetchRaceResult
  | streamed
  | alreadyUsed
deriving DecidableEq

/-- Program counter and result of one racing print-file call.  `pc = 0`:
about to read `fetchedAt` (docs.js:407); `pc = 1`: about to run the atomic
conditional update (docs.js:421); `pc = 2`: done. -/
structure FetchProcSt where
  pc : Nat
  res : Option FetchRaceResult
deriving DecidableEq

/-- Two print-file calls racing on one session record. -/
structure TwoFetch where
  sess : PrintSession
  p1 : FetchProcSt
  p2 : FetchProcSt
deriving DecidableEq

/-- One atomic step of a racing print-file call against the shared session
record.  The read at pc 0 mirrors docs.js:407-409; the conditional update
at pc 1 mirrors docs.js:421-428 (zero rows matched fails 404). -/
def fetchProcStep (now : Nat) (p : FetchProcSt) (s : PrintSession) : FetchProcSt × PrintSession :=
  match p.pc with
  | 0 =>
    if s.fetchedAt.isSome then (⟨2, some FetchRaceResult.alreadyUsed⟩, s)
    else (⟨1, none⟩, s)
  | 1 =>
    match casFetchSession now s with
    | some s2 => (⟨2, some FetchRaceResult.streamed⟩, s2)
    | none => (⟨2, some FetchRaceResult.alreadyUsed⟩, s)
  | _ => (p, s)

/-- Scheduler step: `pick = true` steps the first call, else the second. -/
def twoFetchStep (now : Nat) (pick : Bool) (t : TwoFetch) : TwoFetch :=
  if pick then
    let r := fetchProcStep now t.p1 t.sess
    { t with p1 := r.1, sess := r.2 }
  else
    let r := fetchProcStep now t.p2 t.sess
    { t with p2 := r.1, sess := r.2 }

/-- Run the two racing print-file calls under an arbitrary schedule. -/
def runTwoFetch (now : Nat) (sched : List Bool) (t : TwoFetch) : TwoFetch :=
  sched.foldl (fun acc pick => twoFetchStep now pick acc) t

/-- Invariant of the two-fetch race: the session's `fetchedAt` is set iff
someone streamed, at most one call streams, a 404 result is only ever
produced after `fetchedAt` was set, and a call carries a result exactly
when it is done. -/
def FetchRaceInv (t : TwoFetch) : Prop :=
  (t.sess.fetchedAt.isSome ↔
    (t.p1.res = some FetchRaceResult.streamed ∨ t.p2.res = some FetchRaceResult.streamed))
  ∧ ¬ (t.p1.res = some FetchRaceResult.streamed ∧ t.p2.res = some FetchRaceResult.streamed)
  ∧ (t.p1.res = some FetchRaceResult.alreadyUsed → t.sess.fetchedAt.isSome)
  ∧ (t.p2.res = some FetchRaceResult.alreadyUsed → t.sess.fetchedAt.isSome)
  ∧ (t.p1.pc = 2 ↔ t.p1.res.isSome)
  ∧ (t.p2.pc = 2 ↔ t.p2.res.isSome)

/-- Program counter of one racing offline-prepare call.  `pc = 0`: about to
run the quota check read (docs.js:572); `pc = 1`: check passed, about to run
the unconditional `$inc` (docs.js:598); `pc = 2`: done.  `passed` records
whether the quota check passed. -/
structure PrepProc where
  pc : Nat
  passed : Bool
deriving DecidableEq

/-- One atomic database step of a racing offline-prepare call: the quota
check is a read of the ledger entry, the increment an unconditional write —
exactly the read-then-write split in the source. -/
def prepProcStep (p : PrepProc) (a : DocumentAccess) : PrepProc × DocumentAccess :=
  match p.pc with
  | 0 =>
    if a.usedPrints < a.assignedQuota then (⟨1, true⟩, a) else (⟨2, false⟩, a)
  | 1 => (⟨2, true⟩, { a with usedPrints := a.usedPrints + 1 })
  | _ => (p, a)

/-- Two offline-prepare calls racing on one ledger entry. -/
structure TwoPrepare where
  ledger : DocumentAccess
  p1 : PrepProc
  p2 : PrepProc
deriving DecidableEq

/-- Scheduler step for the offline-prepare race. -/
def twoPrepareStep (pick : Bool) (t : TwoPrepare) : TwoPrepare :=
  if pick then
    let r := prepProcStep t.p1 t.ledger
    { t with p1 := r.1, ledger := r.2 }
  else
    let r := prepProcStep t.p2 t.ledger
    { t with p2 := r.1, ledger := r.2 }

/-- Run the two racing offline-prepare calls under a schedule. -/
def runTwoPrepare (sched : List Bool) (t : TwoPrepare) : TwoPrepare :=
  sched.foldl (fun acc pick => twoPrepareStep pick acc) t

/-- `status` field of a `DocumentJobs` record (src/unnamed/part_012). -/
inductive JobStatus
  | pending
  | processing
  | completed
  | failed
deriving DecidableEq

/-- `stage` field of a `DocumentJobs` record (src/unnamed/part_012). -/
inductive JobStage
  | pending
  | rendering
  | merging
  | completed
  | failed
deriving DecidableEq

/-- One render job, i.e. one `DocumentJobs` document
(src/unnamed/part_012, documentJobSchema).  `pageArtifacts` holds
`(storage key, pageIndex)` pairs; `layoutPages` entries are opaque page
layouts; `updatedAt` is the timestamps-plugin column. -/
structure DocumentJob where
  assignedQuota : Nat
  layoutPages : List Nat
  totalPages : Nat
  completedPages : Nat
  pageArtifacts : List (Nat × Nat)
  userId : Nat
  outputDocumentId : Option Nat
  status : JobStatus
  stage : JobStage
  createdBy : Nat
  updatedAt : Nat
deriving DecidableEq

/-- The single atomic conditional stage transition rendering→merging
(part_014:388-396): `DocumentJobs.findOneAndUpdate({ _id,
outputDocumentId: null, stage: { $in: [pending, rendering] } },
{ $set: { status: processing, stage: merging } })`.  `none` means zero
documents matched, i.e. another worker already won the transition. -/
def tryMergeTransition (j : DocumentJob) : Option DocumentJob :=
  if j.outputDocumentId = none ∧ (j.stage = JobStage.pending ∨ j.stage = JobStage.rendering) then
    some { j with status := JobStatus.processing, stage := JobStage.merging }
  else none

/-- Local state of one render worker finishing one page task
(part_014:300-434): `pc = 0` — about to run the initial `findById` and its
guards (part_014:309-326); `pc = 1` — about to run the page-completion
`findByIdAndUpdate` (part_014:352-366); `pc = 2` — completion check passed,
about to run the conditional rendering→merging transition
(part_014:388-396); `pc = 3` — done.  `snapStage` is the stage captured by
the initial read — stale by the time the later writes run; `attempt`
records the completion check on the increment's returned document
(part_014:377-380); `won` records whether the conditional transition
matched, i.e. whether this worker enqueues the merge task
(part_014:398-414). -/
structure RenderProcSt where
  pc : Nat
  key : Nat
  pageIndex : Nat
  snapStage : JobStage
  attempt : Bool
  won : Bool
deriving DecidableEq

/-- One atomic database step of a render worker against the shared job
record.  The increment step mirrors part_014:352-366 exactly: the decision
to `$set` `stage: rendering` is made on the worker's **stale** snapshot
(`jobDoc.stage !== merging && jobDoc.stage !== completed`), but the write
itself is unconditional, so it can reset a job another worker has already
moved to merging. -/
def renderProcStep (p : RenderProcSt) (job : DocumentJob) : RenderProcSt × DocumentJob :=
  match p.pc with
  | 0 =>
    if job.outputDocumentId.isSome ∨ job.stage = JobStage.completed then
      ({ p with pc := 3 }, job)
    else if job.stage = JobStage.merging then
      ({ p with pc := 3 }, job)
    else
      ({ p with pc := 1, snapStage := job.stage }, job)
  | 1 =>
    let setStage : Bool :=
      decide (p.snapStage ≠ JobStage.merging ∧ p.snapStage ≠ JobStage.completed)
    let job1 : DocumentJob :=
      { job with
        completedPages := job.completedPages + 1,
        pageArtifacts := job.pageArtifacts ++ [(p.key, p.pageIndex)],
        status := JobStatus.processing,
        stage := if setStage then JobStage.rendering else job.stage }
    let attempt : Bool := decide (job1.totalPages ≤ job1.completedPages ∧ 0 < job1.totalPages)
    ({ p with pc := if attempt then 2 else 3, attempt := attempt }, job1)
  | 2 =>
    match tryMergeTransition job with
    | some job2 => ({ p with pc := 3, won := true }, job2)
    | none => ({ p with pc := 3, won := false }, job)
  | _ => (p, job)

/-- Two render workers racing their page-completion tasks on one job. -/
structure TwoRender where
  job : DocumentJob
  p1 : RenderProcSt
  p2 : RenderProcSt
deriving DecidableEq

/-- Scheduler step for the render race: `pick = true` steps the first
worker, else the second. -/
def twoRenderStep (pick : Bool) (t : TwoRender) : TwoRender :=
  if pick then
    let r := renderProcStep t.p1 t.job
    { t with p1 := r.1, job := r.2 }
  else
    let r := renderProcStep t.p2 t.job
    { t with p2 := r.1, job := r.2 }

/-- Run the two racing render workers under an arbitrary schedule. -/
def runTwoRender (sched : List Bool) (t : TwoRender) : TwoRender :=
  sched.foldl (fun acc pick => twoRenderStep pick acc) t

/-- The persistent state seen by the merge worker. -/
structure WorkerState where
  jobs : List (Nat × DocumentJob)
  documents : List (Nat × Doc)
  accesses : List (Nat × DocumentAccess)
deriving DecidableEq

/-- Mongo `findById` on the DocumentJobs collection. -/
def findJobById (jid : Nat) (l : List (Nat × DocumentJob)) : Option DocumentJob :=
  (l.find? (fun p => decide (p.1 = jid))).map Prod.snd

/-- Apply an update to the DocumentJobs record with id `jid`. -/
def updateJobById (jid : Nat) (f : DocumentJob → DocumentJob)
    (l : List (Nat × DocumentJob)) : List (Nat × DocumentJob) :=
  l.map (fun p => if p.1 = jid then (p.1, f p.2) else p)

/-- The completeness computation of the merge worker (part_014:492-500):
indexes in `[0, totalPages)` with no page artifact. -/
def missingPageIndexes (totalPages : Nat) (artifacts : List (Nat × Nat)) : List Nat :=
  (List.range totalPages).filter (fun i => !(decide (i ∈ artifacts.map Prod.snd)))

/-- Outcome of one merge-task delivery. -/
inductive MergeOutcome
  | noJob
  | alreadyCompleted
  | merged (docId : Nat)
deriving DecidableEq

/-- The thrown merge failures modelled here; `incomplete` is the
`Missing rendered page artifacts` throw (part_014:510-514). -/
inductive MergeError
  | incomplete (missing : List Nat)
deriving DecidableEq

/-- The merge worker handler (part_014:441-665).  Re-fetches the job, no-ops
when `outputDocumentId` is set or `stage == completed`, best-effort marks
the job merging, validates completeness (throwing marks the job
failed/failed), then concatenates the artifacts in pageIndex order, uploads
the result under `newFileKey`, creates a Document (`newDocId`), upserts the
DocumentAccess for `(job.userId, newDocId)` with a fresh session token, and
marks the job completed with `outputDocumentId` set.  External S3 / pdf-lib
calls are modelled as succeeding. -/
def mergeHandler (jobId newDocId newAccessId newSessionToken newFileKey : Nat)
    (st : WorkerState) : Except MergeError MergeOutcome × WorkerState :=
  match findJobById jobId st.jobs with
  | none => (Except.ok MergeOutcome.noJob, st)
  | some jobDoc =>
    if jobDoc.outputDocumentId.isSome ∨ jobDoc.stage = JobStage.completed then
      (Except.ok MergeOutcome.alreadyCompleted, st)
    else
      -- best-effort mark as merging (part_014:482-484)
      let markMerging : DocumentJob → DocumentJob :=
        fun j => { j with status := JobStatus.processing, stage := JobStage.merging }
      let markFailed : DocumentJob → DocumentJob :=
        fun j => { j with status := JobStatus.failed, stage := JobStage.failed }
      let st1 : WorkerState := { st with jobs := updateJobById jobId markMerging st.jobs }
      let missing := missingPageIndexes jobDoc.totalPages jobDoc.pageArtifacts
      if 0 < jobDoc.totalPages ∧ missing ≠ [] then
        -- throw → the catch block marks the job failed/failed and rethrows
        -- (part_014:510-514 and 658-661)
        (Except.error (MergeError.incomplete missing),
         { st1 with jobs := updateJobById jobId markFailed st1.jobs })
      else
        let documents1 := st1.documents ++ [(newDocId, ⟨newFileKey⟩)]
        -- DocumentAccess.findOneAndUpdate({ userId, documentId }, ..., { upsert: true })
        -- (part_014:622-632)
        let refreshAccess : DocumentAccess → DocumentAccess := fun a =>
          { a with
            assignedQuota := jobDoc.assignedQuota,
            usedPrints := 0,
            sessionToken := some newSessionToken }
        let newAccess : DocumentAccess :=
          { userId := jobDoc.userId, documentId := newDocId,
            assignedQuota := jobDoc.assignedQuota, usedPrints := 0,
            status := AccessStatus.active, exhaustedAt := none,
            sessionToken := some newSessionToken }
        let accesses1 :=
          if st1.accesses.any (fun p => decide (p.2.userId = jobDoc.userId ∧ p.2.documentId = newDocId)) then
            st1.accesses.map (fun p =>
              if p.2.userId = jobDoc.userId ∧ p.2.documentId = newDocId then
                (p.1, refreshAccess p.2)
              else p)
          else
            st1.accesses ++ [(newAccessId, newAccess)]
        let markCompleted : DocumentJob → DocumentJob := fun j =>
          { j with
            status := JobStatus.completed,
            stage := JobStage.completed,
            outputDocumentId := some newDocId }
        let jobs2 := updateJobById jobId markCompleted st1.jobs
        (Except.ok (MergeOutcome.merged newDocId),
         { jobs := jobs2, documents := documents1, accesses := accesses1 })

/-- State of a task in the durable queue (BullMQ job states as used by the
reconciler, part of docs.js:76-82). -/
inductive QueueTaskState
  | waiting
  | active
  | completed
  | failed
  | delayed
deriving DecidableEq

/-- Action the reconciler takes for one missing page. -/
inductive HealAction
  | retried (taskId : String)
  | enqueued (taskId : String) (pageIndex : Nat)
deriving DecidableEq

/-- The deterministic render-task id used both at submit time and by the
reconciler (docs.js:75). -/
def renderTaskId (jobId : String) (pageIndex : Nat) : String :=
  jobId ++ "-page-" ++ toString pageIndex

/-- `selfHealJobIfStalled` (docs.js:23-111).  Input: the job, the queue's
task table, the per-job `lastJobHealAt` entry and the clock; output: the
updated job, the actions taken (retry a failed task in place, or enqueue a
fresh one under the deterministic id) and the new `lastJobHealAt` entry.
`redisEnabled` mirrors the feature flag read at docs.js:25. -/
def selfHealJobIfStalled (redisEnabled : Bool) (jobId : String) (job : DocumentJob)
    (queue : List (String × QueueTaskState)) (lastHealAt : Option Nat) (now : Nat) :
    DocumentJob × List HealAction × Option Nat :=
  if !redisEnabled then (job, [], lastHealAt)
  else if job.totalPages = 0 then (job, [], lastHealAt)
  else
    let artifactIdx := job.pageArtifacts.map Prod.snd
    let hasAllArtifacts := job.totalPages ≤ artifactIdx.dedup.length
    let pagesAreDone := job.totalPages ≤ job.completedPages ∧ hasAllArtifacts
    if pagesAreDone then (job, [], lastHealAt)
    else if job.updatedAt = 0 then (job, [], lastHealAt)
    else if now - job.updatedAt < 30000 then (job, [], lastHealAt)
    else if now - lastHealAt.getD 0 < 60000 then (job, [], lastHealAt)
    else
      -- lastJobHealAt.set(jobId, now)  (docs.js:57)
      if job.layoutPages.length < job.totalPages then (job, [], some now)
      else
        let missing := (List.range job.totalPages).filter (fun i => !(decide (i ∈ artifactIdx)))
        if missing = [] then (job, [], some now)
        else
          let job1 :=
            if job.status = JobStatus.failed ∨ job.stage = JobStage.failed then
              { job with status := JobStatus.processing, stage := JobStage.rendering }
            else job
          let actions := missing.filterMap (fun i =>
            let rid := renderTaskId jobId i
            match queue.find? (fun p => decide (p.1 = rid)) with
            | some q => if q.2 = QueueTaskState.failed then some (HealAction.retried rid) else none
            | none => some (HealAction.enqueued rid i))
          (job1, actions, some now)

/-- Modelled from the spec (§7 error taxonomy): the abstract error classes
`NotFound`, `QuotaExceeded`, `AlreadyUsed`, `AlreadyInFlight`, `Expired`.
Used only to compare the code's concrete replies against the spec's
classification. -/
inductive SpecErrorClass
  | notFound
  | quotaExceeded
  | alreadyUsed
  | alreadyInFlight
  | expired
deriving DecidableEq

/-- Modelled from the spec: classification of the print-file replies into
the spec's §7 taxonomy.  The 404 reply `Print token not found or already
used` is the AlreadyUsed / NotFound reply; the endpoint has no reply
distinguishable as `Expired`. -/
def specClassOfFetchError : FetchError → SpecErrorClass
  | FetchError.tokenNotFoundOrUsed => SpecErrorClass.alreadyUsed
  | FetchError.accessNotFound => SpecErrorClass.notFound
  | FetchError.printLimitReached => SpecErrorClass.quotaExceeded
  | FetchError.documentNotFound => SpecErrorClass.notFound

/-- Modelled from the spec: classification of the print-confirm replies
into the spec's §7 taxonomy.  The 410 reply `Print session expired` is the
`Expired` class. -/
def specClassOfConfirmError : ConfirmError → SpecErrorClass
  | ConfirmError.sessionNotFound => SpecErrorClass.notFound
  | ConfirmError.alreadyConfirmed => SpecErrorClass.alreadyUsed
  | ConfirmError.sessionExpired => SpecErrorClass.expired
  | ConfirmError.quotaExceeded => SpecErrorClass.quotaExceeded

/-! ## Shared helper lemmas -/

/-- The guarded increment leaves `assignedQuota` unchanged and keeps
`usedPrints` at or below it. -/
theorem applyLedgerOp_le (op : LedgerOp) (a : DocumentAccess)
    (h : a.usedPrints ≤ a.assignedQuota) :
    (applyLedgerOp op a).2.usedPrints ≤ (applyLedgerOp op a).2.assignedQuota
    ∧ (applyLedgerOp op a).2.assignedQuota = a.assignedQuota := by
  cases op with
  | confirmInc =>
    by_cases hg : a.status ≠ AccessStatus.exhausted ∧ a.usedPrints < a.assignedQuota
    · simp [applyLedgerOp, tryIncUsedPrints, hg]
      omega
    · simp [applyLedgerOp, tryIncUsedPrints, hg]
      omega
  | exhaust now =>
    by_cases hf : a.assignedQuota ≤ a.usedPrints
    · simp [applyLedgerOp, exhaustAccess, hf]
      omega
    · simp [applyLedgerOp, hf]
      omega

/-- Quota invariant over an arbitrary interleaving of atomic ledger
operations. -/
theorem runLedgerOps_le (ops : List LedgerOp) :
    ∀ a : DocumentAccess, a.usedPrints ≤ a.assignedQuota →
      (runLedgerOps ops a).2.usedPrints ≤ (runLedgerOps ops a).2.assignedQuota
      ∧ (runLedgerOps ops a).2.assignedQuota = a.assignedQuota := by
  induction ops with
  | nil => intro a h; simpa [runLedgerOps] using h
  | cons op rest ih =>
    intro a h
    have hstep := applyLedgerOp_le op a h
    have := ih (applyLedgerOp op a).2 (hstep.2 ▸ hstep.1)
    simp only [runLedgerOps]
    omega

/-- Counting lemma: over any interleaving of atomic ledger operations, the
number of successful guarded increments is exactly the smaller of the number
of attempts and the remaining quota. -/
theorem runLedgerOps_count (ops : List LedgerOp) :
    ∀ a : DocumentAccess, a.usedPrints ≤ a.assignedQuota →
      (a.status = AccessStatus.exhausted → a.assignedQuota ≤ a.usedPrints) →
      (runLedgerOps ops a).1 = min (countIncs ops) (a.assignedQuota - a.usedPrints) := by
  induction ops with
  | nil => intro a h1 h2; simp [runLedgerOps, countIncs]
  | cons op rest ih =>
    intro a h1 h2
    cases op with
    | confirmInc =>
      by_cases hg : a.status ≠ AccessStatus.exhausted ∧ a.usedPrints < a.assignedQuota
      · have hred : applyLedgerOp LedgerOp.confirmInc a =
            (true, { a with usedPrints := a.usedPrints + 1 }) := by
          simp [applyLedgerOp, tryIncUsedPrints, hg]
        have ihx := ih { a with usedPrints := a.usedPrints + 1 }
          (by simpa using hg.2) (by intro hst; exact absurd hst hg.1)
        simp only [runLedgerOps, hred, countIncs] at ihx ⊢
        simp only [ihx]
        have := hg.2
        simp only [if_true]
        omega
      · have hred : applyLedgerOp LedgerOp.confirmInc a = (false, a) := by
          simp only [applyLedgerOp, tryIncUsedPrints]
          rw [if_neg hg]
        have hz : a.assignedQuota - a.usedPrints = 0 := by
          rcases Decidable.not_and_iff_or_not.mp hg with hns | hnq
          · have : a.status = AccessStatus.exhausted := by
              by_contra hc; exact hns hc
            have := h2 this
            omega
          · omega
        have ihx := ih a h1 h2
        simp only [runLedgerOps, hred, countIncs]
        simp only [ihx, hz]
        simp
    | exhaust t =>
      by_cases hf : a.assignedQuota ≤ a.usedPrints
      · have hred : applyLedgerOp (LedgerOp.exhaust t) a = (false, exhaustAccess t a) := by
          simp [applyLedgerOp, hf]
        have ihx := ih (exhaustAccess t a) (by simpa [exhaustAccess] using h1)
          (by intro _; simpa [exhaustAccess] using hf)
        simp only [runLedgerOps, hred, countIncs]
        simp only [ihx]
        simp [exhaustAccess]
      · have hred : applyLedgerOp (LedgerOp.exhaust t) a = (false, a) := by
          simp [applyLedgerOp, hf]
        have ihx := ih a h1 h2
        simp only [runLedgerOps, hred, countIncs]
        simp only [ihx]
        simp

/-- Characterization of the guarded atomic increment: it succeeds exactly
under its guard and then increments `usedPrints` by one. -/
theorem tryIncUsedPrints_spec (a a1 : DocumentAccess) (h : tryIncUsedPrints a = some a1) :
    a.status ≠ AccessStatus.exhausted ∧ a.usedPrints < a.assignedQuota
    ∧ a1.usedPrints = a.usedPrints + 1 ∧ a1.assignedQuota = a.assignedQuota := by
  by_cases hg : a.status ≠ AccessStatus.exhausted ∧ a.usedPrints < a.assignedQuota
  · simp only [tryIncUsedPrints, if_pos hg] at h
    obtain ⟨hg1, hg2⟩ := hg
    injection h with h2
    refine ⟨hg1, hg2, ?_, ?_⟩ <;> rw [← h2]
  · simp only [tryIncUsedPrints, if_neg hg] at h
    cases h

/-- Looking an entry up after updating it by id sees the update. -/
theorem findAccessById_update (aid : Nat) (f : DocumentAccess → DocumentAccess)
    (l : List (Nat × DocumentAccess)) :
    findAccessById aid (updateAccessById aid f l) = (findAccessById aid l).map f := by
  induction l with
  | nil => simp [findAccessById, updateAccessById]
  | cons p rest ih =>
    by_cases hp : p.1 = aid
    · simp [findAccessById, updateAccessById, List.find?_cons, hp] at ih ⊢
    · simp only [findAccessById, updateAccessById, List.map_cons, if_neg hp] at ih ⊢
      rw [List.find?_cons_of_neg, List.find?_cons_of_neg]
      · exact ih
      · simp [hp]
      · simp [hp]

/-! ## C1 -/

/-- C1: for every ledger entry and every sequence of ConfirmPrint calls
against it, including concurrent ones (modelled as arbitrary interleavings
of the calls' atomic ledger operations), `usedPrints` never exceeds
`assignedQuota` and exactly `assignedQuota` of the confirms can succeed
(the success count is `min` of the number of attempts and the quota); each
successful confirm increments `usedPrints` via the single guarded atomic
update whose guard is `status != exhausted and usedPrints < assignedQuota`;
and when the increment reaches `assignedQuota`, the entry transitions to
exhausted, its `sessionToken` is cleared, and all other outstanding unused
sessions for that entry are invalidated. -/
theorem c1_confirm_quota :
    (∀ (ops : List LedgerOp) (a : DocumentAccess),
        a.usedPrints ≤ a.assignedQuota →
        (runLedgerOps ops a).2.usedPrints ≤ a.assignedQuota)
    ∧ (∀ (ops : List LedgerOp) (a : DocumentAccess),
        a.usedPrints = 0 → a.status = AccessStatus.active →
        (runLedgerOps ops a).1 = min (countIncs ops) a.assignedQuota)
    ∧ (∀ a a1 : DocumentAccess, tryIncUsedPrints a = some a1 →
        a.status ≠ AccessStatus.exhausted ∧ a.usedPrints < a.assignedQuota
        ∧ a1.usedPrints = a.usedPrints + 1 ∧ a1.assignedQuota = a.assignedQuota)
    ∧ (∀ (st : DocsState) (u tok now : Nat) (s : PrintSession) (ok : ConfirmOk) (stf : DocsState),
        st.sessions.find? (confirmFinder tok u) = some s →
        printConfirm u tok now st = (Except.ok ok, stf) →
        ok.usedPrints = ok.assignedPrints →
        (∀ a, findAccessById s.documentAccessId stf.accesses = some a →
          a.status = AccessStatus.exhausted ∧ a.sessionToken = none)
        ∧ (∀ x ∈ stf.sessions, x.documentAccessId = s.documentAccessId → x.usedAt ≠ none)) := by
  refine ⟨?_, ?_, ?_, ?_⟩
  · intro ops a h
    have := runLedgerOps_le ops a h
    omega
  · intro ops a h0 hact
    have := runLedgerOps_count ops a (by omega)
      (by intro hx; rw [hact] at hx; cases hx)
    simpa [h0] using this
  · exact tryIncUsedPrints_spec
  · intro st u tok now s ok stf hfind hrun hfull
    unfold printConfirm at hrun
    split at hrun
    · rename_i heq
      rw [hfind] at heq
      exact Option.noConfusion heq
    · rename_i sess heq
      rw [hfind] at heq
      injection heq with heq
      subst heq
      split at hrun
      · exact absurd hrun (by simp)
      · split at hrun
        · exact absurd hrun (by simp)
        · split at hrun
          · exact absurd hrun (by simp)
          · rename_i aid a hacc
            have haid : aid = s.documentAccessId := by
              have := List.find?_some hacc
              simpa using this
            split at hrun
            · exact absurd hrun (by simp)
            · rename_i a1 hinc
              split at hrun
              · rename_i hfullinc
                rw [Prod.mk.injEq] at hrun
                obtain ⟨hok, hst⟩ := hrun
                subst hst
                constructor
                · intro a2 hfind2
                  rw [← haid] at hfind2
                  simp only [confirmExhaustPhase] at hfind2
                  rw [findAccessById_update] at hfind2
                  rcases Option.map_eq_some'.mp hfind2 with ⟨a3, _, ha3⟩
                  rw [← ha3]
                  exact ⟨rfl, rfl⟩
                · intro x hx hxid
                  simp only [confirmExhaustPhase] at hx
                  rw [List.mem_filter] at hx
                  have hp := hx.2
                  simp only [Bool.not_eq_true', decide_eq_false_iff_not] at hp
                  intro hnone
                  exact hp ⟨haid ▸ hxid, hnone⟩
              · rename_i hnotfull
                rw [Prod.mk.injEq] at hrun
                obtain ⟨hok, hst⟩ := hrun
                injection hok with hok
                subst hok
                exfalso
                simp only at hfull
                omega

/-- Witness for C1: a concrete entry with quota 2 and five interleaved
confirm increments (plus an exhaustion write) admits exactly `min 5 2 = 2`
successes, and `usedPrints` stays within the quota. -/
theorem c1_confirm_quota_witness :
    (runLedgerOps [LedgerOp.confirmInc, LedgerOp.confirmInc, LedgerOp.exhaust 9,
        LedgerOp.confirmInc, LedgerOp.confirmInc, LedgerOp.confirmInc]
      ⟨7, 2, 2, 0, AccessStatus.active, none, some 11⟩).1 = min 5 2
    ∧ (runLedgerOps [LedgerOp.confirmInc, LedgerOp.confirmInc, LedgerOp.exhaust 9,
        LedgerOp.confirmInc, LedgerOp.confirmInc, LedgerOp.confirmInc]
      ⟨7, 2, 2, 0, AccessStatus.active, none, some 11⟩).2.usedPrints ≤ 2 := by
  constructor
  · exact c1_confirm_quota.2.1 _ _ rfl rfl
  · exact c1_confirm_quota.1 _ _ (by decide)

/-! ## C2 -/

/-- C2: the claim (and spec §4.1/§5) requires every quota-consuming path to
check and mutate the ledger in one atomic guarded operation, so that
PrepareOffline preserves `usedPrints <= assignedQuota` under concurrency.
The code instead performs a plain read-check (docs.js:572) followed by an
unconditional `$inc` (docs.js:598).  Under the interleaving
check1, check2, inc1, inc2 of two concurrent PrepareOffline calls on a
ledger entry with `assignedQuota = 2`, `usedPrints = 1`, both calls pass
the quota check, both increment, and the entry ends at `usedPrints = 3 >
assignedQuota = 2` — the invariant the claim asserts is violated, exhibiting
the code bug. -/
theorem c2_prepare_offline_race_bug :
    (runTwoPrepare [true, false, true, false]
        ⟨⟨7, 2, 2, 1, AccessStatus.active, none, some 11⟩, ⟨0, false⟩, ⟨0, false⟩⟩).p1 = ⟨2, true⟩
    ∧ (runTwoPrepare [true, false, true, false]
        ⟨⟨7, 2, 2, 1, AccessStatus.active, none, some 11⟩, ⟨0, false⟩, ⟨0, false⟩⟩).p2 = ⟨2, true⟩
    ∧ (runTwoPrepare [true, false, true, false]
        ⟨⟨7, 2, 2, 1, AccessStatus.active, none, some 11⟩, ⟨0, false⟩, ⟨0, false⟩⟩).ledger.usedPrints = 3
    ∧ ¬ ((runTwoPrepare [true, false, true, false]
        ⟨⟨7, 2, 2, 1, AccessStatus.active, none, some 11⟩, ⟨0, false⟩, ⟨0, false⟩⟩).ledger.usedPrints
      ≤ (runTwoPrepare [true, false, true, false]
        ⟨⟨7, 2, 2, 1, AccessStatus.active, none, some 11⟩, ⟨0, false⟩, ⟨0, false⟩⟩).ledger.assignedQuota) := by
  decide

/-! ## C3 -/

/-- The race invariant is preserved by every scheduler step. -/
theorem fetchRaceInv_step (now : Nat) (pick : Bool) (t : TwoFetch)
    (h : FetchRaceInv t) : FetchRaceInv (twoFetchStep now pick t) := by
  obtain ⟨sess, ⟨pc1, res1⟩, ⟨pc2, res2⟩⟩ := t
  obtain ⟨hA, hB, hC1, hC2, hD1, hD2⟩ := h
  simp only [FetchRaceInv] at hA hB hC1 hC2 hD1 hD2 ⊢
  cases pick
  case true =>
    rcases pc1 with _ | (_ | pc1)
    · by_cases hf : sess.fetchedAt.isSome = true
      · simp_all [twoFetchStep, fetchProcStep]
      · simp_all [twoFetchStep, fetchProcStep]
    · by_cases hf : sess.fetchedAt = none
      · simp_all [twoFetchStep, fetchProcStep, casFetchSession]
      · simp_all [twoFetchStep, fetchProcStep, casFetchSession, Option.isSome_iff_ne_none]
    · simp_all [twoFetchStep, fetchProcStep]
  case false =>
    rcases pc2 with _ | (_ | pc2)
    · by_cases hf : sess.fetchedAt.isSome = true
      · simp_all [twoFetchStep, fetchProcStep]
      · simp_all [twoFetchStep, fetchProcStep]
    · by_cases hf : sess.fetchedAt = none
      · simp_all [twoFetchStep, fetchProcStep, casFetchSession]
      · simp_all [twoFetchStep, fetchProcStep, casFetchSession, Option.isSome_iff_ne_none]
    · simp_all [twoFetchStep, fetchProcStep]

/-- The race invariant is preserved by every schedule. -/
theorem runTwoFetch_inv (now : Nat) (sched : List Bool) :
    ∀ t : TwoFetch, FetchRaceInv t → FetchRaceInv (runTwoFetch now sched t) := by
  induction sched with
  | nil => intro t h; simpa [runTwoFetch] using h
  | cons pick rest ih =>
    intro t h
    have h1 := fetchRaceInv_step now pick t h
    simpa [runTwoFetch] using ih (twoFetchStep now pick t) h1

/-- If a lookup finds `s` and `s` is replaced in place by `s2`, which still
matches the lookup, the lookup then finds `s2`. -/
theorem find?_replaceSession (p : PrintSession → Bool) (s s2 : PrintSession)
    (hp2 : p s2 = true) :
    ∀ l : List PrintSession, l.find? p = some s →
      (replaceSession s s2 l).find? p = some s2 := by
  intro l
  induction l with
  | nil => intro hfind; cases hfind
  | cons x rest ih =>
    intro hfind
    by_cases hx : p x = true
    · rw [List.find?_cons_of_pos _ hx] at hfind
      injection hfind with hfind
      subst hfind
      simp only [replaceSession, List.map_cons, if_pos rfl]
      exact List.find?_cons_of_pos _ hp2
    · rw [List.find?_cons_of_neg _ hx] at hfind
      have hps : p s = true := List.find?_some hfind
      have hxs : x ≠ s := by
        intro he
        rw [he] at hx
        exact hx hps
      simp only [replaceSession, List.map_cons, if_neg hxs]
      rw [List.find?_cons_of_neg _ hx]
      exact ih hfind

/-- C3: FetchContent has exactly-once semantics: the first call transitions
`fetchedAt` from null to now under the single atomic conditional update
keyed on `fetchedAt` being null (conjuncts 1-2); of two concurrent fetch
calls on the same token, under every schedule, exactly one streams the
bytes and the other fails with the 404 already-used reply (conjunct 3);
and a repeated sequential fetch of a fetched token fails the same way
(conjunct 4). -/
theorem c3_fetch_exactly_once :
    (∀ (now : Nat) (s : PrintSession), s.fetchedAt = none →
        casFetchSession now s
          = some { s with fetchedAt := some now, fetchCount := s.fetchCount + 1 })
    ∧ (∀ (now : Nat) (s : PrintSession), s.fetchedAt ≠ none → casFetchSession now s = none)
    ∧ (∀ (now : Nat) (sched : List Bool) (s0 : PrintSession), s0.fetchedAt = none →
        (runTwoFetch now sched ⟨s0, ⟨0, none⟩, ⟨0, none⟩⟩).p1.pc = 2 →
        (runTwoFetch now sched ⟨s0, ⟨0, none⟩, ⟨0, none⟩⟩).p2.pc = 2 →
        ((runTwoFetch now sched ⟨s0, ⟨0, none⟩, ⟨0, none⟩⟩).p1.res = some FetchRaceResult.streamed
          ∧ (runTwoFetch now sched ⟨s0, ⟨0, none⟩, ⟨0, none⟩⟩).p2.res
              = some FetchRaceResult.alreadyUsed)
        ∨ ((runTwoFetch now sched ⟨s0, ⟨0, none⟩, ⟨0, none⟩⟩).p1.res
              = some FetchRaceResult.alreadyUsed
          ∧ (runTwoFetch now sched ⟨s0, ⟨0, none⟩, ⟨0, none⟩⟩).p2.res
              = some FetchRaceResult.streamed))
    ∧ (∀ (st : DocsState) (u tok now : Nat) (s : PrintSession) (acc : DocumentAccess) (d : Doc),
        st.sessions.find? (fetchFinder tok u now) = some s →
        s.fetchedAt = none →
        findAccessById s.documentAccessId st.accesses = some acc →
        acc.status = AccessStatus.active →
        acc.usedPrints < acc.assignedQuota →
        findDocById s.documentId st.documents = some d →
        ∃ stf, printFileFetch u tok now st = (Except.ok d.fileKey, stf)
          ∧ (printFileFetch u tok now stf).1 = Except.error FetchError.tokenNotFoundOrUsed) := by
  refine ⟨?_, ?_, ?_, ?_⟩
  · intro now s h
    simp [casFetchSession, h]
  · intro now s h
    simp [casFetchSession, h]
  · intro now sched s0 h0 hp1 hp2
    have hinv : FetchRaceInv (runTwoFetch now sched ⟨s0, ⟨0, none⟩, ⟨0, none⟩⟩) := by
      apply runTwoFetch_inv
      simp [FetchRaceInv, h0]
    obtain ⟨hA, hB, hC1, hC2, hD1, hD2⟩ := hinv
    have hr1 : (runTwoFetch now sched ⟨s0, ⟨0, none⟩, ⟨0, none⟩⟩).p1.res.isSome := hD1.mp hp1
    have hr2 : (runTwoFetch now sched ⟨s0, ⟨0, none⟩, ⟨0, none⟩⟩).p2.res.isSome := hD2.mp hp2
    obtain ⟨r1, he1⟩ := Option.isSome_iff_exists.mp hr1
    obtain ⟨r2, he2⟩ := Option.isSome_iff_exists.mp hr2
    rw [he1] at hA hB hC1 ⊢
    rw [he2] at hA hB hC2 ⊢
    cases r1 with
    | streamed =>
      cases r2 with
      | streamed => exact absurd ⟨rfl, rfl⟩ hB
      | alreadyUsed => exact Or.inl ⟨rfl, rfl⟩
    | alreadyUsed =>
      cases r2 with
      | streamed => exact Or.inr ⟨rfl, rfl⟩
      | alreadyUsed =>
        exfalso
        have hsome := hC1 rfl
        rcases hA.mp hsome with hx | hx <;> simp at hx
  · intro st u tok now s acc d hfind hf hacc hst hq hdoc
    have hq0 : ¬ (acc.status = AccessStatus.exhausted ∨ acc.assignedQuota - acc.usedPrints = 0) := by
      rw [hst]
      simp
      omega
    have hcas : casFetchSession now s
        = some { s with fetchedAt := some now, fetchCount := s.fetchCount + 1 } := by
      simp [casFetchSession, hf]
    have hfirst : printFileFetch u tok now st
        = (Except.ok d.fileKey,
           { st with sessions := replaceSession s { s with fetchedAt := some now, fetchCount := s.fetchCount + 1 } st.sessions }) := by
      simp only [printFileFetch, hfind, hacc, hcas, hdoc, hf]
      simp [hq0]
    refine ⟨_, hfirst, ?_⟩
    have hps : fetchFinder tok u now s = true := List.find?_some hfind
    have hps2 : fetchFinder tok u now { s with fetchedAt := some now, fetchCount := s.fetchCount + 1 } = true := by
      simpa [fetchFinder] using hps
    have hfind2 : (replaceSession s { s with fetchedAt := some now, fetchCount := s.fetchCount + 1 } st.sessions).find? (fetchFinder tok u now)
        = some { s with fetchedAt := some now, fetchCount := s.fetchCount + 1 } :=
      find?_replaceSession _ _ _ hps2 _ hfind
    simp only [printFileFetch, hfind2]
    simp

/-- Witness for C3: a concrete race (first caller runs both steps, then the
second) streams for the first caller and 404s for the second; and on a
concrete state a sequential repeat of a successful fetch 404s. -/
theorem c3_fetch_exactly_once_witness :
    (((runTwoFetch 10 [true, true, false, false] ⟨⟨3, 7, 2, 5, 1000, none, 0, none⟩, ⟨0, none⟩, ⟨0, none⟩⟩).p1.res = some FetchRaceResult.streamed
      ∧ (runTwoFetch 10 [true, true, false, false] ⟨⟨3, 7, 2, 5, 1000, none, 0, none⟩, ⟨0, none⟩, ⟨0, none⟩⟩).p2.res = some FetchRaceResult.alreadyUsed)
    ∨ ((runTwoFetch 10 [true, true, false, false] ⟨⟨3, 7, 2, 5, 1000, none, 0, none⟩, ⟨0, none⟩, ⟨0, none⟩⟩).p1.res = some FetchRaceResult.alreadyUsed
      ∧ (runTwoFetch 10 [true, true, false, false] ⟨⟨3, 7, 2, 5, 1000, none, 0, none⟩, ⟨0, none⟩, ⟨0, none⟩⟩).p2.res = some FetchRaceResult.streamed))
    ∧ (∃ stf, printFileFetch 7 3 10 ⟨[(5, ⟨7, 2, 2, 0, AccessStatus.active, none, some 11⟩)], [⟨3, 7, 2, 5, 1000, none, 0, none⟩], [], [(2, ⟨99⟩)]⟩
          = (Except.ok (⟨99⟩ : Doc).fileKey, stf)
        ∧ (printFileFetch 7 3 10 stf).1 = Except.error FetchError.tokenNotFoundOrUsed) := by
  constructor
  · exact c3_fetch_exactly_once.2.2.1 10 [true, true, false, false]
      ⟨3, 7, 2, 5, 1000, none, 0, none⟩ rfl (by decide) (by decide)
  · exact c3_fetch_exactly_once.2.2.2
      ⟨[(5, ⟨7, 2, 2, 0, AccessStatus.active, none, some 11⟩)], [⟨3, 7, 2, 5, 1000, none, 0, none⟩], [], [(2, ⟨99⟩)]⟩
      7 3 10 ⟨3, 7, 2, 5, 1000, none, 0, none⟩ ⟨7, 2, 2, 0, AccessStatus.active, none, some 11⟩ ⟨99⟩
      (by decide) rfl (by decide) rfl (by decide) (by decide)

/-! ## C4 -/

/-- C4: the claim (and spec §4.2/§8) asserts that across concurrent callers
racing page-completion on the final page, the conditional rendering→merging
transition succeeds for exactly one caller and only that caller enqueues
the merge task.  On the code this fails: the page-completion
`findByIdAndUpdate` decides its `$set stage: rendering` on the worker's
stale initial read but applies it unconditionally (part_014:352-366), so an
increment landing after a won transition resets the job merging→rendering
and reopens the guard — an optimistic read-modify-write of exactly the kind
spec §5 rules out.  Concretely: a one-page job in stage rendering, its
final-page task delivered to two workers (at-least-once queue), schedule
read1, read2, inc1, transition1, inc2, transition2 — both workers' guarded
conditional updates succeed (`won = true` for both), so each of them runs
the merge enqueue. -/
theorem c4_merge_transition_race_bug :
    ((runTwoRender [true, false, true, true, false, false]
        ⟨⟨2, [0], 1, 0, [], 3, none, JobStatus.processing, JobStage.rendering, 3, 1⟩,
         ⟨0, 20, 0, JobStage.pending, false, false⟩,
         ⟨0, 21, 0, JobStage.pending, false, false⟩⟩).p1.won = true)
    ∧ ((runTwoRender [true, false, true, true, false, false]
        ⟨⟨2, [0], 1, 0, [], 3, none, JobStatus.processing, JobStage.rendering, 3, 1⟩,
         ⟨0, 20, 0, JobStage.pending, false, false⟩,
         ⟨0, 21, 0, JobStage.pending, false, false⟩⟩).p2.won = true)
    ∧ ((runTwoRender [true, false, true, true, false, false]
        ⟨⟨2, [0], 1, 0, [], 3, none, JobStatus.processing, JobStage.rendering, 3, 1⟩,
         ⟨0, 20, 0, JobStage.pending, false, false⟩,
         ⟨0, 21, 0, JobStage.pending, false, false⟩⟩).p1.pc = 3)
    ∧ ((runTwoRender [true, false, true, true, false, false]
        ⟨⟨2, [0], 1, 0, [], 3, none, JobStatus.processing, JobStage.rendering, 3, 1⟩,
         ⟨0, 20, 0, JobStage.pending, false, false⟩,
         ⟨0, 21, 0, JobStage.pending, false, false⟩⟩).p2.pc = 3)
    ∧ ((runTwoRender [true, false, true, true, false, false]
        ⟨⟨2, [0], 1, 0, [], 3, none, JobStatus.processing, JobStage.rendering, 3, 1⟩,
         ⟨0, 20, 0, JobStage.pending, false, false⟩,
         ⟨0, 21, 0, JobStage.pending, false, false⟩⟩).job.stage = JobStage.merging) := by
  decide

/-! ## C5 -/

/-- C5: the merge worker validates completeness before merging — whenever
some index in `[0, totalPages)` has no page artifact, the delivery fails
with the Incomplete error carrying the missing indexes, and neither a
Document nor a ledger entry is created. -/
theorem c5_merge_completeness_guard
    (st : WorkerState) (jobId d a s f : Nat) (j : DocumentJob)
    (hj : findJobById jobId st.jobs = some j)
    (hout : j.outputDocumentId = none)
    (hstage : j.stage ≠ JobStage.completed)
    (htp : 0 < j.totalPages)
    (hmiss : missingPageIndexes j.totalPages j.pageArtifacts ≠ []) :
    (mergeHandler jobId d a s f st).1
        = Except.error (MergeError.incomplete (missingPageIndexes j.totalPages j.pageArtifacts))
    ∧ (mergeHandler jobId d a s f st).2.documents = st.documents
    ∧ (mergeHandler jobId d a s f st).2.accesses = st.accesses := by
  have hguard : ¬ (j.outputDocumentId.isSome = true ∨ j.stage = JobStage.completed) := by
    simp [hout, hstage]
  have hcond : 0 < j.totalPages ∧ missingPageIndexes j.totalPages j.pageArtifacts ≠ [] :=
    ⟨htp, hmiss⟩
  simp only [mergeHandler, hj, if_neg hguard, if_pos hcond]
  exact ⟨trivial, trivial, trivial⟩

/-- Witness for C5: a job with `totalPages = 5` and artifacts only for
pages 0-3 fails with `Incomplete [4]` and creates no Document and no
ledger entry. -/
theorem c5_merge_completeness_guard_witness :
    (mergeHandler 1 50 60 70 80 ⟨[(1, ⟨2, [0, 0, 0, 0, 0], 5, 4, [(10, 0), (11, 1), (12, 2), (13, 3)], 3, none, JobStatus.processing, JobStage.merging, 3, 1⟩)], [], []⟩).1
        = Except.error (MergeError.incomplete (missingPageIndexes 5 [(10, 0), (11, 1), (12, 2), (13, 3)]))
    ∧ (mergeHandler 1 50 60 70 80 ⟨[(1, ⟨2, [0, 0, 0, 0, 0], 5, 4, [(10, 0), (11, 1), (12, 2), (13, 3)], 3, none, JobStatus.processing, JobStage.merging, 3, 1⟩)], [], []⟩).2.documents = ([] : List (Nat × Doc))
    ∧ (mergeHandler 1 50 60 70 80 ⟨[(1, ⟨2, [0, 0, 0, 0, 0], 5, 4, [(10, 0), (11, 1), (12, 2), (13, 3)], 3, none, JobStatus.processing, JobStage.merging, 3, 1⟩)], [], []⟩).2.accesses = ([] : List (Nat × DocumentAccess)) :=
  c5_merge_completeness_guard
    ⟨[(1, ⟨2, [0, 0, 0, 0, 0], 5, 4, [(10, 0), (11, 1), (12, 2), (13, 3)], 3, none, JobStatus.processing, JobStage.merging, 3, 1⟩)], [], []⟩
    1 50 60 70 80
    ⟨2, [0, 0, 0, 0, 0], 5, 4, [(10, 0), (11, 1), (12, 2), (13, 3)], 3, none, JobStatus.processing, JobStage.merging, 3, 1⟩
    (by decide) rfl (by decide) (by decide) (by decide)

/-! ## C6 -/

/-- Looking a job up after updating it by id sees the update. -/
theorem findJobById_update (jid : Nat) (f : DocumentJob → DocumentJob)
    (l : List (Nat × DocumentJob)) :
    findJobById jid (updateJobById jid f l) = (findJobById jid l).map f := by
  induction l with
  | nil => simp [findJobById, updateJobById]
  | cons p rest ih =>
    by_cases hp : p.1 = jid
    · simp [findJobById, updateJobById, List.find?_cons, hp] at ih ⊢
    · simp only [findJobById, updateJobById, List.map_cons, if_neg hp] at ih ⊢
      rw [List.find?_cons_of_neg, List.find?_cons_of_neg]
      · exact ih
      · simp [hp]
      · simp [hp]

/-- C6 counterexample: the claim says a merge delivery finding
`stage == merging` is a no-op.  On the code it is not: for a job with
`stage = merging`, `outputDocumentId = null` and a complete artifact set,
the handler proceeds and creates a Document (the state grows), so the
stage==merging guard the claim describes does not exist; it is in fact the
normal entry state of every first merge delivery. -/
theorem c6_merging_not_noop_counterexample :
    (mergeHandler 1 50 60 70 80 ⟨[(1, ⟨2, [0], 1, 1, [(7, 0)], 3, none, JobStatus.processing, JobStage.merging, 3, 1⟩)], [], []⟩).1
      = Except.ok (MergeOutcome.merged 50)
    ∧ (mergeHandler 1 50 60 70 80 ⟨[(1, ⟨2, [0], 1, 1, [(7, 0)], 3, none, JobStatus.processing, JobStage.merging, 3, 1⟩)], [], []⟩).2.documents
      = [(50, ⟨80⟩)]
    ∧ ¬ ((mergeHandler 1 50 60 70 80 ⟨[(1, ⟨2, [0], 1, 1, [(7, 0)], 3, none, JobStatus.processing, JobStage.merging, 3, 1⟩)], [], []⟩).2.documents
      = ([] : List (Nat × Doc))) :=
  ⟨rfl, rfl, by decide⟩

/-- C6 (amended): the merge handler no-ops exactly on the guard
`outputDocumentId` set or `stage == completed` (conjunct 1); a first
delivery on a ready job creates exactly one Document and one ledger entry
and a second delivery of the same task is a no-op on the resulting state,
so two deliveries create exactly one Document and one ledger entry
(conjunct 2). -/
theorem c6_merge_idempotent :
    (∀ (st : WorkerState) (jobId d a s f : Nat) (j : DocumentJob),
        findJobById jobId st.jobs = some j →
        (j.outputDocumentId.isSome = true ∨ j.stage = JobStage.completed) →
        mergeHandler jobId d a s f st = (Except.ok MergeOutcome.alreadyCompleted, st))
    ∧ (∀ (st : WorkerState) (jobId d1 a1 s1 f1 d2 a2 s2 f2 : Nat) (j : DocumentJob),
        findJobById jobId st.jobs = some j →
        j.outputDocumentId = none →
        j.stage ≠ JobStage.completed →
        missingPageIndexes j.totalPages j.pageArtifacts = [] →
        (∀ p ∈ st.accesses, ¬ (p.2.userId = j.userId ∧ p.2.documentId = d1)) →
        (mergeHandler jobId d1 a1 s1 f1 st).1 = Except.ok (MergeOutcome.merged d1)
        ∧ (mergeHandler jobId d1 a1 s1 f1 st).2.documents = st.documents ++ [(d1, ⟨f1⟩)]
        ∧ (mergeHandler jobId d1 a1 s1 f1 st).2.accesses
            = st.accesses ++ [(a1, ⟨j.userId, d1, j.assignedQuota, 0, AccessStatus.active, none, some s1⟩)]
        ∧ mergeHandler jobId d2 a2 s2 f2 (mergeHandler jobId d1 a1 s1 f1 st).2
            = (Except.ok MergeOutcome.alreadyCompleted, (mergeHandler jobId d1 a1 s1 f1 st).2)) := by
  constructor
  · intro st jobId d a s f j hj hguard
    simp only [mergeHandler, hj, if_pos hguard]
  · intro st jobId d1 a1 s1 f1 d2 a2 s2 f2 j hj hout hstage hcomplete hfresh
    have hguard : ¬ (j.outputDocumentId.isSome = true ∨ j.stage = JobStage.completed) := by
      simp [hout, hstage]
    have hcond : ¬ (0 < j.totalPages ∧ missingPageIndexes j.totalPages j.pageArtifacts ≠ []) := by
      simp [hcomplete]
    have hany : (st.accesses.any fun p => decide (p.2.userId = j.userId ∧ p.2.documentId = d1)) = false := by
      rw [List.any_eq_false]
      intro p hp
      simpa using hfresh p hp
    have hmain : mergeHandler jobId d1 a1 s1 f1 st
        = (Except.ok (MergeOutcome.merged d1),
           ⟨updateJobById jobId (fun x => { x with status := JobStatus.completed, stage := JobStage.completed, outputDocumentId := some d1 }) (updateJobById jobId (fun x => { x with status := JobStatus.processing, stage := JobStage.merging }) st.jobs),
            st.documents ++ [(d1, ⟨f1⟩)],
            st.accesses ++ [(a1, ⟨j.userId, d1, j.assignedQuota, 0, AccessStatus.active, none, some s1⟩)]⟩) := by
      simp only [mergeHandler, hj, if_neg hguard, if_neg hcond]
      simp [hany]
      intro x x1 hx h1 h2
      exact absurd ⟨h1, h2⟩ (hfresh (x, x1) hx)
    refine ⟨?_, ?_, ?_, ?_⟩
    · rw [hmain]
    · rw [hmain]
    · rw [hmain]
    · rw [hmain]
      have hj2 : findJobById jobId
          (updateJobById jobId (fun x => { x with status := JobStatus.completed, stage := JobStage.completed, outputDocumentId := some d1 }) (updateJobById jobId (fun x => { x with status := JobStatus.processing, stage := JobStage.merging }) st.jobs))
          = some { j with status := JobStatus.completed, stage := JobStage.completed, outputDocumentId := some d1 } := by
        rw [findJobById_update, findJobById_update, hj]
        rfl
      simp only [mergeHandler]
      rw [hj2]
      simp

/-- Witness for C6 (amended): on a concrete single-page job, the first
delivery creates one Document and one ledger entry and a second delivery
no-ops on the already-completed job. -/
theorem c6_merge_idempotent_witness :
    (mergeHandler 1 50 60 70 80 ⟨[(1, ⟨2, [0], 1, 1, [(7, 0)], 3, none, JobStatus.processing, JobStage.merging, 3, 1⟩)], [], []⟩).1 = Except.ok (MergeOutcome.merged 50)
    ∧ (mergeHandler 1 50 60 70 80 ⟨[(1, ⟨2, [0], 1, 1, [(7, 0)], 3, none, JobStatus.processing, JobStage.merging, 3, 1⟩)], [], []⟩).2.documents = [] ++ [(50, ⟨80⟩)]
    ∧ (mergeHandler 1 50 60 70 80 ⟨[(1, ⟨2, [0], 1, 1, [(7, 0)], 3, none, JobStatus.processing, JobStage.merging, 3, 1⟩)], [], []⟩).2.accesses = [] ++ [(60, ⟨3, 50, 2, 0, AccessStatus.active, none, some 70⟩)]
    ∧ mergeHandler 1 51 61 71 81 (mergeHandler 1 50 60 70 80 ⟨[(1, ⟨2, [0], 1, 1, [(7, 0)], 3, none, JobStatus.processing, JobStage.merging, 3, 1⟩)], [], []⟩).2
        = (Except.ok MergeOutcome.alreadyCompleted, (mergeHandler 1 50 60 70 80 ⟨[(1, ⟨2, [0], 1, 1, [(7, 0)], 3, none, JobStatus.processing, JobStage.merging, 3, 1⟩)], [], []⟩).2) :=
  c6_merge_idempotent.2
    ⟨[(1, ⟨2, [0], 1, 1, [(7, 0)], 3, none, JobStatus.processing, JobStage.merging, 3, 1⟩)], [], []⟩
    1 50 60 70 80 51 61 71 81
    ⟨2, [0], 1, 1, [(7, 0)], 3, none, JobStatus.processing, JobStage.merging, 3, 1⟩
    (by decide) rfl (by decide) (by decide) (by decide)

/-! ## C7 -/

/-- C7: a job with `totalPages = 3`, exactly two distinct page artifacts
covering all indexes except `m`, `status = failed`, intact layout data,
`updatedAt` 45 seconds old and no heal attempt in the last 60 seconds is
flipped back to processing/rendering by one reconciler pass, which takes
exactly one action for the single missing index `m` under the
deterministic task id `jobId ++ "-page-" ++ m`: it enqueues a fresh task
when the queue has none under that id, and retries the existing task in
place when the queue holds it in the failed state. -/
theorem c7_self_heal (jobId : String) (j : DocumentJob)
    (queue : List (String × QueueTaskState)) (lastHealAt : Option Nat) (now : Nat)
    (l : List Nat) (m : Nat)
    (htp : j.totalPages = 3)
    (hart : j.pageArtifacts.map Prod.snd = l)
    (hmem : ∀ i, i ∈ l ↔ (i < 3 ∧ i ≠ m))
    (hd : l.dedup.length = 2)
    (hm : m < 3)
    (hupd : j.updatedAt + 45000 = now)
    (hupd0 : j.updatedAt ≠ 0)
    (hlast : lastHealAt.getD 0 + 60000 ≤ now)
    (hstatus : j.status = JobStatus.failed)
    (hlay : 3 ≤ j.layoutPages.length) :
    (selfHealJobIfStalled true jobId j queue lastHealAt now).1.status = JobStatus.processing
    ∧ (selfHealJobIfStalled true jobId j queue lastHealAt now).1.stage = JobStage.rendering
    ∧ (selfHealJobIfStalled true jobId j queue lastHealAt now).2.2 = some now
    ∧ (queue.find? (fun p => decide (p.1 = renderTaskId jobId m)) = none →
        (selfHealJobIfStalled true jobId j queue lastHealAt now).2.1
          = [HealAction.enqueued (renderTaskId jobId m) m])
    ∧ (∀ q, queue.find? (fun p => decide (p.1 = renderTaskId jobId m)) = some q →
        q.2 = QueueTaskState.failed →
        (selfHealJobIfStalled true jobId j queue lastHealAt now).2.1
          = [HealAction.retried (renderTaskId jobId m)]) := by
  have hmiss : (List.range j.totalPages).filter
      (fun i => !(decide (i ∈ j.pageArtifacts.map Prod.snd))) = [m] := by
    rw [htp, hart]
    have e0 : List.range 3 = [0, 1, 2] := rfl
    rw [e0]
    interval_cases m
    · have h0 : (0 : Nat) ∉ l := fun h => by have := (hmem 0).mp h; omega
      have h1 : (1 : Nat) ∈ l := (hmem 1).mpr ⟨by omega, by omega⟩
      have h2 : (2 : Nat) ∈ l := (hmem 2).mpr ⟨by omega, by omega⟩
      simp [List.filter_cons, h0, h1, h2]
    · have h0 : (0 : Nat) ∈ l := (hmem 0).mpr ⟨by omega, by omega⟩
      have h1 : (1 : Nat) ∉ l := fun h => by have := (hmem 1).mp h; omega
      have h2 : (2 : Nat) ∈ l := (hmem 2).mpr ⟨by omega, by omega⟩
      simp [List.filter_cons, h0, h1, h2]
    · have h0 : (0 : Nat) ∈ l := (hmem 0).mpr ⟨by omega, by omega⟩
      have h1 : (1 : Nat) ∈ l := (hmem 1).mpr ⟨by omega, by omega⟩
      have h2 : (2 : Nat) ∉ l := fun h => by have := (hmem 2).mp h; omega
      simp [List.filter_cons, h0, h1, h2]
  have hB : ¬ (j.totalPages = 0) := by omega
  have hc1 : ¬ (j.totalPages ≤ j.completedPages
      ∧ j.totalPages ≤ (j.pageArtifacts.map Prod.snd).dedup.length) := by
    rw [htp, hart, hd]
    intro h
    omega
  have hc2 : ¬ (now - j.updatedAt < 30000) := by omega
  have hc3 : ¬ (now - lastHealAt.getD 0 < 60000) := by omega
  have hc4 : ¬ (j.layoutPages.length < j.totalPages) := by omega
  have hor : j.status = JobStatus.failed ∨ j.stage = JobStage.failed := Or.inl hstatus
  have hred : selfHealJobIfStalled true jobId j queue lastHealAt now
      = ({ j with status := JobStatus.processing, stage := JobStage.rendering },
         [m].filterMap (fun i =>
            match queue.find? (fun p => decide (p.1 = renderTaskId jobId i)) with
            | some q =>
              if q.2 = QueueTaskState.failed then some (HealAction.retried (renderTaskId jobId i))
              else none
            | none => some (HealAction.enqueued (renderTaskId jobId i) i)),
         some now) := by
    simp only [selfHealJobIfStalled, Bool.not_true, Bool.false_eq_true, if_false]
    rw [if_neg hB, if_neg hc1, if_neg hupd0, if_neg hc2, if_neg hc3, if_neg hc4, hmiss,
      if_neg (by simp : ¬ (([m] : List Nat) = [])), if_pos hor]
  rw [hred]
  refine ⟨rfl, rfl, rfl, ?_, ?_⟩
  · intro hqn
    simp [List.filterMap_cons, hqn]
  · intro q hq hqf
    simp [List.filterMap_cons, hq, hqf]

/-- Witness for C7: a concrete failed job (3 pages, artifacts for pages 0
and 1, 45 s stale, never healed) is flipped to processing/rendering and
exactly one task is enqueued for page 2 under id `j1-page-2`. -/
theorem c7_self_heal_witness :
    (selfHealJobIfStalled true "j1" ⟨2, [0, 0, 0], 3, 2, [(20, 0), (21, 1)], 3, none, JobStatus.failed, JobStage.failed, 3, 55000⟩ [] none 100000).1.status = JobStatus.processing
    ∧ (selfHealJobIfStalled true "j1" ⟨2, [0, 0, 0], 3, 2, [(20, 0), (21, 1)], 3, none, JobStatus.failed, JobStage.failed, 3, 55000⟩ [] none 100000).1.stage = JobStage.rendering
    ∧ (selfHealJobIfStalled true "j1" ⟨2, [0, 0, 0], 3, 2, [(20, 0), (21, 1)], 3, none, JobStatus.failed, JobStage.failed, 3, 55000⟩ [] none 100000).2.2 = some 100000
    ∧ (selfHealJobIfStalled true "j1" ⟨2, [0, 0, 0], 3, 2, [(20, 0), (21, 1)], 3, none, JobStatus.failed, JobStage.failed, 3, 55000⟩ [] none 100000).2.1
        = [HealAction.enqueued (renderTaskId "j1" 2) 2] := by
  have h := c7_self_heal "j1"
    ⟨2, [0, 0, 0], 3, 2, [(20, 0), (21, 1)], 3, none, JobStatus.failed, JobStage.failed, 3, 55000⟩
    [] none 100000 [0, 1] 2 rfl rfl
    (by intro i; simp; omega) (by decide) (by decide) (by decide) (by decide) (by decide) rfl
    (by decide)
  exact ⟨h.1, h.2.1, h.2.2.1, h.2.2.2.1 (by decide)⟩

/-! ## C8 -/

/-- C8 counterexample: on a concrete state holding one expired print
session (expiresAt 10, now 100) and nothing else, the fetch endpoint does
not fail with an Expired-class error as the claim states: the expired
session is excluded by the lookup's expiry filter, so the reply is the
generic 404 `Print token not found or already used`, whose spec class is
AlreadyUsed/NotFound — not Expired.  (The confirm endpoint does reply 410
Expired; see the amended theorem.) -/
theorem c8_fetch_expired_counterexample :
    (printFileFetch 7 3 100 ⟨[(5, ⟨7, 2, 2, 0, AccessStatus.active, none, some 11⟩)], [⟨3, 7, 2, 5, 10, none, 0, none⟩], [], [(2, ⟨99⟩)]⟩).1
      = Except.error FetchError.tokenNotFoundOrUsed
    ∧ specClassOfFetchError FetchError.tokenNotFoundOrUsed ≠ SpecErrorClass.expired
    ∧ (printFileFetch 7 3 100 ⟨[(5, ⟨7, 2, 2, 0, AccessStatus.active, none, some 11⟩)], [⟨3, 7, 2, 5, 10, none, 0, none⟩], [], [(2, ⟨99⟩)]⟩).2
      = ⟨[(5, ⟨7, 2, 2, 0, AccessStatus.active, none, some 11⟩)], [⟨3, 7, 2, 5, 10, none, 0, none⟩], [], [(2, ⟨99⟩)]⟩ :=
  ⟨rfl, by decide, rfl⟩

/-- C8 (amended): for a token whose `expiresAt` lies in the past, both
endpoints fail and leave the state — in particular the ledger's
`usedPrints` — unchanged; the confirm endpoint fails with the 410
Expired reply, while the fetch endpoint fails with the 404
not-found-or-already-used reply (its lookup filters expired sessions out,
so no Expired-class reply exists on the fetch path). -/
theorem c8_expired_token (st : DocsState) (u tok now : Nat) (s : PrintSession)
    (h1 : st.sessions.find? (confirmFinder tok u) = some s)
    (h2 : s.usedAt = none)
    (h3 : s.expiresAt < now)
    (h4 : st.sessions.find? (fetchFinder tok u now) = none)
    (h5 : st.offlineTokens.find? (offlineFinder tok u now) = none) :
    printFileFetch u tok now st = (Except.error FetchError.tokenNotFoundOrUsed, st)
    ∧ printConfirm u tok now st = (Except.error ConfirmError.sessionExpired, st)
    ∧ specClassOfConfirmError ConfirmError.sessionExpired = SpecErrorClass.expired := by
  refine ⟨?_, ?_, rfl⟩
  · simp only [printFileFetch, h4, h5]
  · simp only [printConfirm, h1, h2]
    simp [h3]

/-- Witness for C8 (amended): concrete expired session, both calls fail and
the state is untouched. -/
theorem c8_expired_token_witness :
    printFileFetch 7 3 100 ⟨[(5, ⟨7, 2, 2, 1, AccessStatus.active, none, some 11⟩)], [⟨3, 7, 2, 5, 10, none, 0, none⟩], [], [(2, ⟨99⟩)]⟩
      = (Except.error FetchError.tokenNotFoundOrUsed, ⟨[(5, ⟨7, 2, 2, 1, AccessStatus.active, none, some 11⟩)], [⟨3, 7, 2, 5, 10, none, 0, none⟩], [], [(2, ⟨99⟩)]⟩)
    ∧ printConfirm 7 3 100 ⟨[(5, ⟨7, 2, 2, 1, AccessStatus.active, none, some 11⟩)], [⟨3, 7, 2, 5, 10, none, 0, none⟩], [], [(2, ⟨99⟩)]⟩
      = (Except.error ConfirmError.sessionExpired, ⟨[(5, ⟨7, 2, 2, 1, AccessStatus.active, none, some 11⟩)], [⟨3, 7, 2, 5, 10, none, 0, none⟩], [], [(2, ⟨99⟩)]⟩)
    ∧ specClassOfConfirmError ConfirmError.sessionExpired = SpecErrorClass.expired :=
  c8_expired_token
    ⟨[(5, ⟨7, 2, 2, 1, AccessStatus.active, none, some 11⟩)], [⟨3, 7, 2, 5, 10, none, 0, none⟩], [], [(2, ⟨99⟩)]⟩
    7 3 100 ⟨3, 7, 2, 5, 10, none, 0, none⟩
    (by decide) rfl (by decide) (by decide) (by decide)

/-! ## C9 -/

/-- C9 counterexample: the claim says AlreadyInFlight is returned exactly
when another unfetched, unexpired token exists.  On a concrete state whose
only live session has already been fetched (`fetchedAt` set) but not
confirmed (`usedAt` null), no unfetched unexpired token exists, yet
secure-print still replies 409 AlreadyInFlight — the code's in-flight
filter is on `usedAt`, not `fetchedAt` (docs.js:350-355). -/
theorem c9_issue_in_flight_counterexample :
    (securePrint 7 11 100 21 ⟨[(1, ⟨7, 2, 5, 1, AccessStatus.active, none, some 11⟩)], [⟨20, 7, 2, 1, 1000000, some 50, 1, none⟩], [], [(2, ⟨99⟩)]⟩).1
      = Except.error IssueError.alreadyInProgress
    ∧ (∀ s ∈ ([⟨20, 7, 2, 1, 1000000, some 50, 1, none⟩] : List PrintSession),
        ¬ (s.fetchedAt = none ∧ 100 < s.expiresAt)) :=
  ⟨rfl, by decide⟩

/-- C9 (amended): on an authorized, active ledger entry with remaining
quota, secure-print fails AlreadyInFlight exactly when another unused
(`usedAt` null), unexpired session exists for the same (owner, ledger
entry) pair; when no such session exists, it mints a fresh single-use
print token whose TTL is 60 seconds (`expiresAt = now + 60 * 1000`). -/
theorem c9_issue_in_flight (st : DocsState) (u sessionTok now newToken aid : Nat)
    (a : DocumentAccess) (d : Doc)
    (hacc : st.accesses.find? (fun p => decide (p.2.sessionToken = some sessionTok)) = some (aid, a))
    (hu : a.userId = u)
    (hq : a.usedPrints < a.assignedQuota)
    (hs : a.status = AccessStatus.active)
    (hdoc : findDocById a.documentId st.documents = some d) :
    ((securePrint u sessionTok now newToken st).1 = Except.error IssueError.alreadyInProgress
      ↔ (st.sessions.find? (inFlightFinder u aid now)).isSome = true)
    ∧ (st.sessions.find? (inFlightFinder u aid now) = none →
        securePrint u sessionTok now newToken st
          = (Except.ok ⟨newToken, now + 60 * 1000, a.assignedQuota - a.usedPrints, a.assignedQuota⟩,
             { st with sessions := st.sessions ++ [⟨newToken, u, a.documentId, aid, now + 60 * 1000, none, 0, none⟩] })) := by
  have hne : ¬ (a.userId ≠ u) := by simp [hu]
  have hq0 : ¬ (a.assignedQuota - a.usedPrints = 0) := by omega
  have hs0 : ¬ (a.status = AccessStatus.exhausted) := by rw [hs]; simp
  constructor
  · cases hin : st.sessions.find? (inFlightFinder u aid now) with
    | some s => simp [securePrint, hacc, hne, hq0, hs0, hin]
    | none => simp [securePrint, hacc, hne, hq0, hs0, hin, hdoc]
  · intro hin
    simp [securePrint, hacc, hne, hq0, hs0, hin, hdoc]

/-- Witness for C9 (amended): with no session outstanding, a concrete
secure-print call mints a token expiring 60 000 ms after `now`; and the
in-flight reply is equivalent to an unused unexpired session existing. -/
theorem c9_issue_in_flight_witness :
    (((securePrint 7 11 100 21 ⟨[(1, ⟨7, 2, 5, 1, AccessStatus.active, none, some 11⟩)], [], [], [(2, ⟨99⟩)]⟩).1 = Except.error IssueError.alreadyInProgress)
      ↔ (([] : List PrintSession).find? (inFlightFinder 7 1 100)).isSome = true)
    ∧ securePrint 7 11 100 21 ⟨[(1, ⟨7, 2, 5, 1, AccessStatus.active, none, some 11⟩)], [], [], [(2, ⟨99⟩)]⟩
        = (Except.ok ⟨21, 100 + 60 * 1000, 5 - 1, 5⟩,
           ⟨[(1, ⟨7, 2, 5, 1, AccessStatus.active, none, some 11⟩)], [] ++ [⟨21, 7, 2, 1, 100 + 60 * 1000, none, 0, none⟩], [], [(2, ⟨99⟩)]⟩) := by
  have h := c9_issue_in_flight
    ⟨[(1, ⟨7, 2, 5, 1, AccessStatus.active, none, some 11⟩)], [], [], [(2, ⟨99⟩)]⟩
    7 11 100 21 1 ⟨7, 2, 5, 1, AccessStatus.active, none, some 11⟩ ⟨99⟩
    (by decide) rfl (by decide) rfl (by decide)
  exact ⟨h.1, h.2 (by decide)⟩

/-! ## C10 -/

/-- C10: when no live print session matches a token and an unexpired,
unused offline token does, the print-file endpoint streams the document and
returns the state unchanged — it sets neither `fetchedAt` nor `usedAt`, so
the fetch can be repeated any number of times (the second conjunct repeats
the call on the returned state). -/
theorem c10_offline_fetch_repeatable (st : DocsState) (u tok now : Nat)
    (o : OfflineToken) (d : Doc)
    (h1 : st.sessions.find? (fetchFinder tok u now) = none)
    (h2 : st.offlineTokens.find? (offlineFinder tok u now) = some o)
    (h3 : findDocById o.documentId st.documents = some d) :
    printFileFetch u tok now st = (Except.ok d.fileKey, st)
    ∧ printFileFetch u tok now (printFileFetch u tok now st).2 = (Except.ok d.fileKey, st) := by
  have hfirst : printFileFetch u tok now st = (Except.ok d.fileKey, st) := by
    simp only [printFileFetch, h1, h2, h3]
  exact ⟨hfirst, by rw [hfirst]; exact hfirst⟩

/-- Witness for C10: a concrete offline token is fetched twice with the
same streamed document and an untouched state. -/
theorem c10_offline_fetch_repeatable_witness :
    printFileFetch 7 30 100 ⟨[(5, ⟨7, 2, 2, 1, AccessStatus.active, none, some 11⟩)], [], [⟨30, 7, 2, 5, 40, 50, 90000, none, none⟩], [(2, ⟨99⟩)]⟩
      = (Except.ok (⟨99⟩ : Doc).fileKey, ⟨[(5, ⟨7, 2, 2, 1, AccessStatus.active, none, some 11⟩)], [], [⟨30, 7, 2, 5, 40, 50, 90000, none, none⟩], [(2, ⟨99⟩)]⟩)
    ∧ printFileFetch 7 30 100 (printFileFetch 7 30 100 ⟨[(5, ⟨7, 2, 2, 1, AccessStatus.active, none, some 11⟩)], [], [⟨30, 7, 2, 5, 40, 50, 90000, none, none⟩], [(2, ⟨99⟩)]⟩).2
      = (Except.ok (⟨99⟩ : Doc).fileKey, ⟨[(5, ⟨7, 2, 2, 1, AccessStatus.active, none, some 11⟩)], [], [⟨30, 7, 2, 5, 40, 50, 90000, none, none⟩], [(2, ⟨99⟩)]⟩) :=
  c10_offline_fetch_repeatable
    ⟨[(5, ⟨7, 2, 2, 1, AccessStatus.active, none, some 11⟩)], [], [⟨30, 7, 2, 5, 40, 50, 90000, none, none⟩], [(2, ⟨99⟩)]⟩
    7 30 100 ⟨30, 7, 2, 5, 40, 50, 90000, none, none⟩ ⟨99⟩
    (by decide) (by decide) (by decide)

end SecurePdf
